import Mathlib

/-!
Verification of the cDNA reagent-volume calculator
(`src/modern-app/src/App.tsx`, mirrored in the suite front-end variant).

The calculator is pure arithmetic over IEEE doubles.  We embed it shallowly,
idealising finite doubles as exact rationals (`ℚ`); `Number.prototype.toFixed`
and `Math.round`/`Math.ceil`/`Math.floor` are modelled exactly on that
idealisation.  Non-finite values (NaN, ±Infinity), which matter for the
error-handling claims, are handled by a second, byte-faithful model over an
extended number type `JSVal` further below.
-/

namespace CdnaCalc

/-- JS `Math.round x` = ⌊x + 1/2⌋ (round half toward +∞), as an integer. -/
def halfUpInt (x : ℚ) : ℤ := ⌊x + 1/2⌋

/-- JS `Math.round`, result as a rational. -/
def mathRound (x : ℚ) : ℚ := (halfUpInt x : ℚ)

/-- Model of `Number(x.toFixed(k))`: round to `k` decimal places.  ECMAScript `toFixed`
rounds the absolute value with ties picking the larger candidate, then
re-attaches the sign. -/
def tfRound (k : ℕ) (x : ℚ) : ℚ :=
  if x < 0 then -((halfUpInt (-x * (10 : ℚ) ^ k) : ℚ) / (10 : ℚ) ^ k)
  else (halfUpInt (x * (10 : ℚ) ^ k) : ℚ) / (10 : ℚ) ^ k

/-- Left-pad a digit string with zeros to length `k`. -/
def padZeros (k : ℕ) (s : String) : String :=
  if s.length < k then String.mk (List.replicate (k - s.length) '0') ++ s else s

/-- Model of `x.toFixed(k)` as a string (ECMAScript semantics on the rational
idealisation): round `|x|` to `k` decimals with ties up, print with exactly
`k` fractional digits, prefix `-` for negative inputs. -/
def toFixedStr (k : ℕ) (x : ℚ) : String :=
  let n : ℤ := halfUpInt (|x| * (10 : ℚ) ^ k)
  let base : ℤ := (10 : ℤ) ^ k
  let core :=
    if k = 0 then toString n
    else toString (n / base) ++ "." ++ padZeros k (toString (n % base))
  if x < 0 then "-" ++ core else core

/-- JS default number-to-string (template interpolation `${x}`) for values
whose double is an exact multiple of 1/1000 — the only values interpolated by
the calculator (dilution factors, `MIN_PIP`, and `Math.round(_*1000)/1000`
results).  JS prints the shortest decimal, i.e. `toFixed(3)` with trailing
zeros (and a trailing dot) stripped. -/
def jsNumToString (x : ℚ) : String :=
  let s := toFixedStr 3 x
  let cs := List.dropWhile (fun c => c == '0') s.toList.reverse
  let cs' := match cs with
    | '.' :: rest => rest
    | l => l
  String.mk cs'.reverse

/-! Constants of `src/modern-app/src/App.tsx` (lines 36–39):
`const FIXED = { buffer: 2.0, dntps: 0.8, rand: 2.0, enzyme: 1.0 }`
`const FINAL_VOL = 20.0`
`const AVAIL_RNA_H2O = FINAL_VOL - (FIXED.buffer + FIXED.dntps + FIXED.rand + FIXED.enzyme)`
`const MIN_PIP = 0.5` -/

/-- The four fixed reagent volumes (µl per reaction). -/
structure FixedReagents where
  buffer : ℚ
  dntps : ℚ
  rand : ℚ
  enzyme : ℚ
deriving Repr, DecidableEq

def FIXED : FixedReagents := { buffer := 2, dntps := 8 / 10, rand := 2, enzyme := 1 }

def FINAL_VOL : ℚ := 20

def AVAIL_RNA_H2O : ℚ := FINAL_VOL - (FIXED.buffer + FIXED.dntps + FIXED.rand + FIXED.enzyme)

def MIN_PIP : ℚ := 5 / 10

/-- Source function `dilutionRecipeText(D, prep = 10)` (App.tsx lines 41–46). -/
def dilutionRecipeText (D : ℚ) (prep : ℚ) : String :=
  if D ≤ 1 then "No pre-dilution needed."
  else
    let rna := mathRound (prep / D * 1000) / 1000
    let h2o := mathRound ((prep - rna) * 1000) / 1000
    let ds := jsNumToString D
    let dm := jsNumToString (D - 1)
    let ps := jsNumToString prep
    let rs := jsNumToString rna
    let hs := jsNumToString h2o
    s!"Pre-dilute {ds}× (1:{dm}). Make {ps} µl: {rs} µl RNA + {hs} µl H₂O."

/-- A dilution suggestion `{ D, aliq, recipe }` as returned by
`suggestDilution`. -/
structure Suggestion where
  D : ℚ
  aliq : ℚ
  recipe : String
deriving Repr, DecidableEq

/-- The fixed candidate list `[2, 3, 4, 5, 10, 20, 50]` (App.tsx line 49). -/
def candidates : List ℚ := [2, 3, 4, 5, 10, 20, 50]

/-- Source function `suggestDilution(req)` (App.tsx lines 48–61).  The `for`-loop over
`candidates` returning on the first in-range factor is exactly
`List.find?`.  `Math.ceil`/`Math.floor` are `⌈·⌉`/`⌊·⌋`.  This rational
model is faithful only for `req ≠ 0`: at `req = 0` the source computes
`dMax = Math.floor(14.2 / 0) = Infinity`, passes the guard, and falls back
to the factor-`Infinity` suggestion with `NaN` aliquot, whereas Lean's
`q / 0 = 0` makes `dMax = 0` and returns `none` here.  `suggestDilutionJS`
below models `req = 0` faithfully (and is what the C7 counterexample uses);
every theorem about this function assumes `0 < req`. -/
def suggestDilution (req : ℚ) : Option Suggestion :=
  let dMin : ℤ := ⌈MIN_PIP / req⌉
  let dMax : ℤ := ⌊AVAIL_RNA_H2O / req⌋
  if dMax < 1 then none
  else
    match candidates.find? (fun D => decide (MIN_PIP ≤ D * req ∧ D * req ≤ AVAIL_RNA_H2O)) with
    | some D => some { D := D, aliq := D * req, recipe := dilutionRecipeText D 10 }
    | none =>
      let D : ℚ := max 1 (dMin : ℚ)
      let aliq := D * req
      if aliq > AVAIL_RNA_H2O then none
      else some { D := D, aliq := aliq, recipe := dilutionRecipeText D 10 }

/-- One input sample `{ sample, conc }`. -/
structure SampleIn where
  sample : String
  conc : ℚ
deriving Repr, DecidableEq

/-- One output row (`CalcRow` in the source).  Nullable/empty cells are
`Option`; `order` is the `_order` key. -/
structure CalcRow where
  order : ℕ
  sample : String
  conc : Option ℚ
  rnaVol : Option ℚ
  buffer : ℚ
  dntps : ℚ
  rand : ℚ
  enzyme : ℚ
  h2o : Option ℚ
  finalVol : Option ℚ
  achievable : Option ℚ
  note : String
deriving Repr, DecidableEq

/-- Build a sample row as pushed at App.tsx lines 93–106: volumes rounded to
3 decimals when non-null, achievable mass to 1 decimal.  (`Number.isFinite`
on the echoed concentration is always true in the rational model.) -/
def mkSampleRow (idx : ℕ) (s : SampleIn) (rnaVol h2o : Option ℚ) (achievable : ℚ)
    (note : String) : CalcRow :=
  { order := idx
    sample := s.sample
    conc := some s.conc
    rnaVol := rnaVol.map (tfRound 3)
    buffer := FIXED.buffer
    dntps := FIXED.dntps
    rand := FIXED.rand
    enzyme := FIXED.enzyme
    h2o := h2o.map (tfRound 3)
    finalVol := some FINAL_VOL
    achievable := some (tfRound 1 achievable)
    note := note }

/-- Per-sample body of the `for` loop in `calcLocally` (App.tsx lines 65–107).
`req` is `NaN` when `conc ≤ 0`, and `NaN <= AVAIL_RNA_H2O` is false, so the
infeasible branch is taken; we therefore branch on `0 < conc` first.  Inside
the feasible branch `req` is the finite rational `target / conc`.

This rational model is faithful only for `req ≠ 0`, i.e. `target ≠ 0`: at
`target = 0` with positive concentration the source's advisor divides by
zero and returns a factor-`Infinity` suggestion with a `NaN` aliquot, giving
the row non-null `NaN` volumes, while this model returns the no-fit row.
That case is modelled faithfully by `calcRowJS` below, and every theorem
reading this function's volume cells carries a hypothesis excluding it
(`target ≠ 0`, `0 < target`, or `MIN_PIP ≤ target / conc`). -/
def calcRow (target : ℚ) (idx : ℕ) (s : SampleIn) : CalcRow :=
  let achievable0 := max 0 (s.conc * AVAIL_RNA_H2O)
  let infNote :=
    "Conc too low: max " ++ toFixedStr 1 achievable0 ++ " ng in " ++
      toFixedStr 1 AVAIL_RNA_H2O ++ " µl."
  if 0 < s.conc then
    let req := target / s.conc
    if req ≤ AVAIL_RNA_H2O then
      if MIN_PIP ≤ req then
        mkSampleRow idx s (some req) (some (AVAIL_RNA_H2O - req)) target ""
      else
        match suggestDilution req with
        | some sug =>
          let note :=
            "Stock volume " ++ toFixedStr 3 req ++ " µl < " ++ jsNumToString MIN_PIP ++
              " µl. " ++ sug.recipe ++ " Then add " ++ toFixedStr 3 sug.aliq ++
              " µl of the diluted RNA."
          mkSampleRow idx s (some sug.aliq) (some (AVAIL_RNA_H2O - sug.aliq)) target note
        | none =>
          let note :=
            "Stock volume " ++ toFixedStr 3 req ++ " µl too small; no pre-dilution fits in " ++
              toFixedStr 1 AVAIL_RNA_H2O ++ " µl."
          mkSampleRow idx s none none achievable0 note
    else
      mkSampleRow idx s none none achievable0 infNote
  else
    mkSampleRow idx s none none achievable0 infNote

/-- The indexed `for (const [idx, s] of samples.entries())` loop. -/
def calcRows (target : ℚ) : ℕ → List SampleIn → List CalcRow
  | _, [] => []
  | idx, s :: rest => calcRow target idx s :: calcRows target (idx + 1) rest

/-- Master-mix reaction count `nTotal = Math.max(1, Math.ceil(samples.length * (1 + overage / 100)))`
(App.tsx line 109). -/
def nTotalReactions (n : ℕ) (overage : ℚ) : ℤ :=
  max 1 ⌈(n : ℚ) * (1 + overage / 100)⌉

/-- The aggregate master-mix row (App.tsx lines 110–123); `_order` is the
sentinel `10 ** 9`. -/
def masterRow (n : ℕ) (overage : ℚ) : CalcRow :=
  let nTot := nTotalReactions n overage
  let ov := toFixedStr 0 overage
  { order := 10 ^ 9
    sample := s!"MASTER MIX ({ov}% overage) — {nTot} rxns"
    conc := none
    rnaVol := none
    buffer := tfRound 3 (FIXED.buffer * (nTot : ℚ))
    dntps := tfRound 3 (FIXED.dntps * (nTot : ℚ))
    rand := tfRound 3 (FIXED.rand * (nTot : ℚ))
    enzyme := tfRound 3 (FIXED.enzyme * (nTot : ℚ))
    h2o := none
    finalVol := none
    achievable := none
    note := s!"Make in one tube; covers {n} samples + {ov}% overage." }

/-- The `masterMix` summary object (App.tsx lines 125–132). -/
structure MasterMix where
  n_samples : ℕ
  n_total : ℤ
  buffer : ℚ
  dntps : ℚ
  rand : ℚ
  enzyme : ℚ
deriving Repr, DecidableEq

/-- Result of `calcLocally`: the row list (sample rows then the master-mix
row) and the master-mix summary. -/
structure CalcResult where
  rows : List CalcRow
  masterMix : MasterMix
deriving Repr, DecidableEq

/-- Source function `calcLocally(samples, target, overage)` (App.tsx lines 63–135). -/
def calcLocally (samples : List SampleIn) (target overage : ℚ) : CalcResult :=
  let nTot := nTotalReactions samples.length overage
  { rows := calcRows target 0 samples ++ [masterRow samples.length overage]
    masterMix :=
      { n_samples := samples.length
        n_total := nTot
        buffer := tfRound 3 (FIXED.buffer * (nTot : ℚ))
        dntps := tfRound 3 (FIXED.dntps * (nTot : ℚ))
        rand := tfRound 3 (FIXED.rand * (nTot : ℚ))
        enzyme := tfRound 3 (FIXED.enzyme * (nTot : ℚ)) } }

/-- The empty-input guard of `handleCalculate` (App.tsx lines 154–158): with
no samples it sets an error and returns without computing; otherwise it runs
the local calculation. -/
def handleCalculate (samples : List SampleIn) (target overage : ℚ) :
    Except String CalcResult :=
  if samples.isEmpty then
    Except.error "Please paste at least one sample with a concentration."
  else
    Except.ok (calcLocally samples target overage)

/-!
The suite front-end variant (`src/unnamed/part_008`, lines 100–215) carries
its own copy of the same constants and functions.  We embed that copy
separately, under `Suite`, to compare the two (claim C9).  The row/result
types and the JS-runtime helpers (`Math.round`, `toFixed`, number printing)
are the ambient runtime and are shared.
-/

namespace Suite

/-- Suite copy of `const FIXED = { buffer: 2.0, dntps: 0.8, rand: 2.0, enzyme: 1.0 }`
(part_008 line 43). -/
def FIXED : FixedReagents := { buffer := 2, dntps := 8 / 10, rand := 2, enzyme := 1 }

/-- Suite copy of `const FINAL_VOL = 20.0` (part_008 line 44). -/
def FINAL_VOL : ℚ := 20

/-- Suite copy of `const AVAIL_RNA_H2O = FINAL_VOL - (...)` (part_008 line 45). -/
def AVAIL_RNA_H2O : ℚ := FINAL_VOL - (FIXED.buffer + FIXED.dntps + FIXED.rand + FIXED.enzyme)

/-- Suite copy of `const MIN_PIP = 0.5` (part_008 line 46). -/
def MIN_PIP : ℚ := 5 / 10

/-- Suite copy of `dilutionRecipeText` (part_008 lines 114–119). -/
def dilutionRecipeText (D : ℚ) (prep : ℚ) : String :=
  if D ≤ 1 then "No pre-dilution needed."
  else
    let rna := mathRound (prep / D * 1000) / 1000
    let h2o := mathRound ((prep - rna) * 1000) / 1000
    let ds := jsNumToString D
    let dm := jsNumToString (D - 1)
    let ps := jsNumToString prep
    let rs := jsNumToString rna
    let hs := jsNumToString h2o
    s!"Pre-dilute {ds}× (1:{dm}). Make {ps} µl: {rs} µl RNA + {hs} µl H₂O."

/-- The candidate list of the suite copy (part_008 line 122). -/
def candidates : List ℚ := [2, 3, 4, 5, 10, 20, 50]

/-- Suite copy of `suggestDilution` (part_008 lines 121–134); the same
`req = 0` caveat as the modern-app copy applies (faithful for `req ≠ 0`). -/
def suggestDilution (req : ℚ) : Option Suggestion :=
  let dMin : ℤ := ⌈MIN_PIP / req⌉
  let dMax : ℤ := ⌊AVAIL_RNA_H2O / req⌋
  if dMax < 1 then none
  else
    match candidates.find? (fun D => decide (MIN_PIP ≤ D * req ∧ D * req ≤ AVAIL_RNA_H2O)) with
    | some D => some { D := D, aliq := D * req, recipe := dilutionRecipeText D 10 }
    | none =>
      let D : ℚ := max 1 (dMin : ℚ)
      let aliq := D * req
      if aliq > AVAIL_RNA_H2O then none
      else some { D := D, aliq := aliq, recipe := dilutionRecipeText D 10 }

/-- Row construction as pushed at part_008 lines 172–185. -/
def mkSampleRow (idx : ℕ) (s : SampleIn) (rnaVol h2o : Option ℚ) (achievable : ℚ)
    (note : String) : CalcRow :=
  { order := idx
    sample := s.sample
    conc := some s.conc
    rnaVol := rnaVol.map (tfRound 3)
    buffer := FIXED.buffer
    dntps := FIXED.dntps
    rand := FIXED.rand
    enzyme := FIXED.enzyme
    h2o := h2o.map (tfRound 3)
    finalVol := some FINAL_VOL
    achievable := some (tfRound 1 achievable)
    note := note }

/-- Per-sample loop body of the suite copy of `calcLocally`
(part_008 lines 138–186); faithful for `target ≠ 0`, like `calcRow`. -/
def calcRow (target : ℚ) (idx : ℕ) (s : SampleIn) : CalcRow :=
  let achievable0 := max 0 (s.conc * AVAIL_RNA_H2O)
  let infNote :=
    "Conc too low: max " ++ toFixedStr 1 achievable0 ++ " ng in " ++
      toFixedStr 1 AVAIL_RNA_H2O ++ " µl."
  if 0 < s.conc then
    let req := target / s.conc
    if req ≤ AVAIL_RNA_H2O then
      if MIN_PIP ≤ req then
        mkSampleRow idx s (some req) (some (AVAIL_RNA_H2O - req)) target ""
      else
        match suggestDilution req with
        | some sug =>
          let note :=
            "Stock volume " ++ toFixedStr 3 req ++ " µl < " ++ jsNumToString MIN_PIP ++
              " µl. " ++ sug.recipe ++ " Then add " ++ toFixedStr 3 sug.aliq ++
              " µl of the diluted RNA."
          mkSampleRow idx s (some sug.aliq) (some (AVAIL_RNA_H2O - sug.aliq)) target note
        | none =>
          let note :=
            "Stock volume " ++ toFixedStr 3 req ++ " µl too small; no pre-dilution fits in " ++
              toFixedStr 1 AVAIL_RNA_H2O ++ " µl."
          mkSampleRow idx s none none achievable0 note
    else
      mkSampleRow idx s none none achievable0 infNote
  else
    mkSampleRow idx s none none achievable0 infNote

/-- The indexed sample loop of the suite copy. -/
def calcRows (target : ℚ) : ℕ → List SampleIn → List CalcRow
  | _, [] => []
  | idx, s :: rest => calcRow target idx s :: calcRows target (idx + 1) rest

/-- Reaction count `nTotal` of the suite copy (part_008 line 188). -/
def nTotalReactions (n : ℕ) (overage : ℚ) : ℤ :=
  max 1 ⌈(n : ℚ) * (1 + overage / 100)⌉

/-- The master-mix row of the suite copy (part_008 lines 189–202). -/
def masterRow (n : ℕ) (overage : ℚ) : CalcRow :=
  let nTot := nTotalReactions n overage
  let ov := toFixedStr 0 overage
  { order := 10 ^ 9
    sample := s!"MASTER MIX ({ov}% overage) — {nTot} rxns"
    conc := none
    rnaVol := none
    buffer := tfRound 3 (FIXED.buffer * (nTot : ℚ))
    dntps := tfRound 3 (FIXED.dntps * (nTot : ℚ))
    rand := tfRound 3 (FIXED.rand * (nTot : ℚ))
    enzyme := tfRound 3 (FIXED.enzyme * (nTot : ℚ))
    h2o := none
    finalVol := none
    achievable := none
    note := s!"Make in one tube; covers {n} samples + {ov}% overage." }

/-- The suite copy of `calcLocally` (part_008 lines 136–208). -/
def calcLocally (samples : List SampleIn) (target overage : ℚ) : CalcResult :=
  let nTot := nTotalReactions samples.length overage
  { rows := calcRows target 0 samples ++ [masterRow samples.length overage]
    masterMix :=
      { n_samples := samples.length
        n_total := nTot
        buffer := tfRound 3 (FIXED.buffer * (nTot : ℚ))
        dntps := tfRound 3 (FIXED.dntps * (nTot : ℚ))
        rand := tfRound 3 (FIXED.rand * (nTot : ℚ))
        enzyme := tfRound 3 (FIXED.enzyme * (nTot : ℚ)) } }

end Suite

/-!
Byte-faithful model of JS numbers for the non-finite cases (claim C5):
a JS double is a finite rational (idealised exactly), `NaN`, `+Infinity`
or `-Infinity`.  The comparison and arithmetic operators below implement
the ECMAScript semantics for those values (`-0` is identified with `0`).
-/

/-- A JS number: finite value (idealised as `ℚ`), NaN, or ±Infinity. -/
inductive JSVal where
  | num (q : ℚ)
  | nan
  | inf
  | ninf
deriving Repr, DecidableEq

namespace JSVal

/-- JS `a < b` (false whenever either side is NaN). -/
def jlt : JSVal → JSVal → Bool
  | num a, num b => decide (a < b)
  | num _, inf => true
  | ninf, num _ => true
  | ninf, inf => true
  | _, _ => false

/-- JS `a <= b` (false whenever either side is NaN). -/
def jle : JSVal → JSVal → Bool
  | num a, num b => decide (a ≤ b)
  | num _, inf => true
  | ninf, num _ => true
  | ninf, inf => true
  | inf, inf => true
  | ninf, ninf => true
  | _, _ => false

/-- JS `a > b`. -/
def jgt (a b : JSVal) : Bool := jlt b a

/-- JS `a >= b`. -/
def jge (a b : JSVal) : Bool := jle b a

/-- JS multiplication. -/
def jmul : JSVal → JSVal → JSVal
  | nan, _ => nan
  | _, nan => nan
  | num a, num b => num (a * b)
  | num a, inf => if a > 0 then inf else if a < 0 then ninf else nan
  | num a, ninf => if a > 0 then ninf else if a < 0 then inf else nan
  | inf, num b => if b > 0 then inf else if b < 0 then ninf else nan
  | ninf, num b => if b > 0 then ninf else if b < 0 then inf else nan
  | inf, inf => inf
  | inf, ninf => ninf
  | ninf, inf => ninf
  | ninf, ninf => inf

/-- JS division (division of a nonzero finite value by `0` gives ±Infinity
since the JS zero here is `+0`; `0/0` gives NaN). -/
def jdiv : JSVal → JSVal → JSVal
  | nan, _ => nan
  | _, nan => nan
  | num a, num b =>
    if b = 0 then (if a > 0 then inf else if a < 0 then ninf else nan)
    else num (a / b)
  | num _, inf => num 0
  | num _, ninf => num 0
  | inf, num b => if b < 0 then ninf else inf
  | ninf, num b => if b < 0 then inf else ninf
  | inf, _ => nan
  | ninf, _ => nan

/-- JS subtraction. -/
def jsub : JSVal → JSVal → JSVal
  | nan, _ => nan
  | _, nan => nan
  | num a, num b => num (a - b)
  | num _, inf => ninf
  | num _, ninf => inf
  | inf, num _ => inf
  | ninf, num _ => ninf
  | inf, inf => nan
  | inf, ninf => inf
  | ninf, inf => ninf
  | ninf, ninf => nan

/-- JS `Math.max` (NaN-propagating). -/
def jmax : JSVal → JSVal → JSVal
  | nan, _ => nan
  | _, nan => nan
  | num a, num b => num (max a b)
  | inf, _ => inf
  | _, inf => inf
  | ninf, b => b
  | a, ninf => a

/-- JS `Math.ceil`. -/
def jceil : JSVal → JSVal
  | num q => num (⌈q⌉ : ℚ)
  | v => v

/-- JS `Math.floor`. -/
def jfloor : JSVal → JSVal
  | num q => num (⌊q⌋ : ℚ)
  | v => v

/-- JS `Math.round`. -/
def jmathRound : JSVal → JSVal
  | num q => num (mathRound q)
  | v => v

/-- JS `Number.isFinite`. -/
def jIsFinite : JSVal → Bool
  | num _ => true
  | _ => false

/-- JS `x.toFixed(k)` (`(NaN).toFixed(k) = "NaN"`, `(Infinity).toFixed(k) =
"Infinity"`). -/
def jToFixedStr (k : ℕ) : JSVal → String
  | num q => toFixedStr k q
  | nan => "NaN"
  | inf => "Infinity"
  | ninf => "-Infinity"

/-- JS `Number(x.toFixed(k))` — `Number("NaN") = NaN`, `Number("Infinity") =
Infinity`. -/
def jtfRound (k : ℕ) : JSVal → JSVal
  | num q => num (tfRound k q)
  | v => v

/-- JS template interpolation `${x}`. -/
def jToString : JSVal → String
  | num q => jsNumToString q
  | nan => "NaN"
  | inf => "Infinity"
  | ninf => "-Infinity"

end JSVal

/-- Source function `dilutionRecipeText` over JS values. -/
def dilutionRecipeTextJS (D prep : JSVal) : String :=
  if D.jle (.num 1) then "No pre-dilution needed."
  else
    let rna := JSVal.jdiv (JSVal.jmathRound ((prep.jdiv D).jmul (.num 1000))) (.num 1000)
    let h2o := JSVal.jdiv (JSVal.jmathRound ((prep.jsub rna).jmul (.num 1000))) (.num 1000)
    let ds := D.jToString
    let dm := (D.jsub (.num 1)).jToString
    let ps := prep.jToString
    let rs := rna.jToString
    let hs := h2o.jToString
    s!"Pre-dilute {ds}× (1:{dm}). Make {ps} µl: {rs} µl RNA + {hs} µl H₂O."

/-- A suggestion over JS values. -/
structure JSSuggestion where
  D : JSVal
  aliq : JSVal
  recipe : String
deriving Repr, DecidableEq

/-- The candidate list as JS values. -/
def candidatesJS : List JSVal :=
  [.num 2, .num 3, .num 4, .num 5, .num 10, .num 20, .num 50]

/-- Source function `suggestDilution` (App.tsx lines 48–61) over JS values. -/
def suggestDilutionJS (req : JSVal) : Option JSSuggestion :=
  let dMin := JSVal.jceil (JSVal.jdiv (.num MIN_PIP) req)
  let dMax := JSVal.jfloor (JSVal.jdiv (.num AVAIL_RNA_H2O) req)
  if dMax.jlt (.num 1) then none
  else
    match candidatesJS.find?
        (fun D => (D.jmul req).jge (.num MIN_PIP) && (D.jmul req).jle (.num AVAIL_RNA_H2O)) with
    | some D => some { D := D, aliq := D.jmul req, recipe := dilutionRecipeTextJS D (.num 10) }
    | none =>
      let D := JSVal.jmax (.num 1) dMin
      let aliq := D.jmul req
      if aliq.jgt (.num AVAIL_RNA_H2O) then none
      else some { D := D, aliq := aliq, recipe := dilutionRecipeTextJS D (.num 10) }

/-- An input sample over JS values. -/
structure JSSample where
  sample : String
  conc : JSVal
deriving Repr, DecidableEq

/-- An output row over JS values. -/
structure JSRow where
  order : ℕ
  sample : String
  conc : Option JSVal
  rnaVol : Option JSVal
  buffer : JSVal
  dntps : JSVal
  rand : JSVal
  enzyme : JSVal
  h2o : Option JSVal
  finalVol : Option JSVal
  achievable : Option JSVal
  note : String
deriving Repr, DecidableEq

/-- The per-sample loop body of `calcLocally` (App.tsx lines 65–107) over JS
values: `req = s.conc > 0 ? target / s.conc : NaN`, `feasible = req <=
AVAIL_RNA_H2O`, then the branch structure of the source, with the row pushed
at lines 93–106 (the concentration cell is blank when not finite). -/
def calcRowJS (target : JSVal) (idx : ℕ) (s : JSSample) : JSRow :=
  let req := if s.conc.jgt (.num 0) then target.jdiv s.conc else JSVal.nan
  let feasible := req.jle (.num AVAIL_RNA_H2O)
  let achievable0 := JSVal.jmax (.num 0) (s.conc.jmul (.num AVAIL_RNA_H2O))
  let res : Option JSVal × Option JSVal × JSVal × String :=
    if feasible then
      if req.jge (.num MIN_PIP) then
        (some req, some (JSVal.jsub (.num AVAIL_RNA_H2O) req), target, "")
      else
        match suggestDilutionJS req with
        | some sug =>
          (some sug.aliq, some (JSVal.jsub (.num AVAIL_RNA_H2O) sug.aliq), target,
            "Stock volume " ++ JSVal.jToFixedStr 3 req ++ " µl < " ++
              jsNumToString MIN_PIP ++ " µl. " ++ sug.recipe ++ " Then add " ++
              JSVal.jToFixedStr 3 sug.aliq ++ " µl of the diluted RNA.")
        | none =>
          (none, none, achievable0,
            "Stock volume " ++ JSVal.jToFixedStr 3 req ++
              " µl too small; no pre-dilution fits in " ++
              toFixedStr 1 AVAIL_RNA_H2O ++ " µl.")
    else
      (none, none, achievable0,
        "Conc too low: max " ++ JSVal.jToFixedStr 1 achievable0 ++ " ng in " ++
          toFixedStr 1 AVAIL_RNA_H2O ++ " µl.")
  { order := idx
    sample := s.sample
    conc := if s.conc.jIsFinite then some s.conc else none
    rnaVol := res.1.map (JSVal.jtfRound 3)
    buffer := .num FIXED.buffer
    dntps := .num FIXED.dntps
    rand := .num FIXED.rand
    enzyme := .num FIXED.enzyme
    h2o := res.2.1.map (JSVal.jtfRound 3)
    finalVol := some (.num FINAL_VOL)
    achievable := some (JSVal.jtfRound 1 res.2.2.1)
    note := res.2.2.2 }

/-! Helper lemmas about the rounding model and the row list. -/

/-- Rounding half-up moves a value by at most 1/2. -/
theorem abs_halfUpInt_sub_le (y : ℚ) : |(halfUpInt y : ℚ) - y| ≤ 1 / 2 := by
  have h1 : ((⌊y + 1 / 2⌋ : ℤ) : ℚ) ≤ y + 1 / 2 := Int.floor_le _
  have h2 : y + 1 / 2 < ((⌊y + 1 / 2⌋ : ℤ) : ℚ) + 1 := Int.lt_floor_add_one _
  rw [halfUpInt, abs_le]
  constructor <;> linarith

/-- Rounding to `k` decimal places moves a value by at most `1/(2·10^k)`. -/
theorem abs_tfRound_sub_le (k : ℕ) (x : ℚ) : |tfRound k x - x| ≤ 1 / (2 * 10 ^ k) := by
  have hpow : (0 : ℚ) < 10 ^ k := by positivity
  rw [tfRound]
  split_ifs with hx
  · have hb := abs_halfUpInt_sub_le (-x * 10 ^ k)
    have e : -((halfUpInt (-x * 10 ^ k) : ℚ) / 10 ^ k) - x
        = -((halfUpInt (-x * 10 ^ k) : ℚ) - -x * 10 ^ k) / 10 ^ k := by
      field_simp
      ring
    rw [e, abs_div, abs_neg, abs_of_pos hpow, div_le_div_iff₀ hpow (by positivity)]
    calc |(halfUpInt (-x * 10 ^ k) : ℚ) - -x * 10 ^ k| * (2 * 10 ^ k)
        ≤ 1 / 2 * (2 * 10 ^ k) := by
          apply mul_le_mul_of_nonneg_right hb (by positivity)
      _ = 1 * 10 ^ k := by ring
  · have hb := abs_halfUpInt_sub_le (x * 10 ^ k)
    have e : (halfUpInt (x * 10 ^ k) : ℚ) / 10 ^ k - x
        = ((halfUpInt (x * 10 ^ k) : ℚ) - x * 10 ^ k) / 10 ^ k := by
      field_simp
      ring
    rw [e, abs_div, abs_of_pos hpow, div_le_div_iff₀ hpow (by positivity)]
    calc |(halfUpInt (x * 10 ^ k) : ℚ) - x * 10 ^ k| * (2 * 10 ^ k)
        ≤ 1 / 2 * (2 * 10 ^ k) := by
          apply mul_le_mul_of_nonneg_right hb (by positivity)
      _ = 1 * 10 ^ k := by ring

/-- A pair of cells rounded to 3 decimals that summed exactly to
`AVAIL_RNA_H2O` before rounding still sums to it within 1/1000. -/
theorem tfRound3_pair_bound (a : ℚ) :
    |tfRound 3 a + tfRound 3 (AVAIL_RNA_H2O - a) - AVAIL_RNA_H2O| ≤ 1 / 1000 := by
  have h1 := abs_tfRound_sub_le 3 a
  have h2 := abs_tfRound_sub_le 3 (AVAIL_RNA_H2O - a)
  norm_num at h1 h2
  rw [abs_le] at h1 h2 ⊢
  constructor <;> linarith [h1.1, h1.2, h2.1, h2.2]

/-- The sample-row segment of the output preserves length. -/
theorem calcRows_length (t : ℚ) : ∀ (k : ℕ) (xs : List SampleIn),
    (calcRows t k xs).length = xs.length := by
  intro k xs
  induction xs generalizing k with
  | nil => rfl
  | cons s rest ih => simp [calcRows, ih]

/-- The `j`-th produced sample row is `calcRow` of the `j`-th sample, with
the running index offset. -/
theorem calcRows_getElem? (t : ℚ) : ∀ (xs : List SampleIn) (k j : ℕ),
    (calcRows t k xs)[j]? = xs[j]?.map (fun s => calcRow t (k + j) s) := by
  intro xs
  induction xs with
  | nil => intro k j; simp [calcRows]
  | cons s rest ih =>
    intro k j
    cases j with
    | zero => simp [calcRows]
    | succ j' =>
      have e : k + 1 + j' = k + (j' + 1) := by omega
      simp only [calcRows, List.getElem?_cons_succ]
      rw [ih (k + 1) j', e]

/-- The `i`-th output row of `calcLocally` (for `i` within the sample range)
is the per-sample result of the `i`-th input sample. -/
theorem calcLocally_rows_getElem? (samples : List SampleIn) (t o : ℚ) (i : ℕ)
    (s : SampleIn) (hs : samples[i]? = some s) :
    (calcLocally samples t o).rows[i]? = some (calcRow t i s) := by
  have hi : i < samples.length := by
    by_contra hge
    rw [List.getElem?_eq_none (by omega)] at hs
    exact Option.noConfusion hs
  have hlen : i < (calcRows t 0 samples).length := by rw [calcRows_length]; exact hi
  unfold calcLocally
  rw [List.getElem?_append_left hlen, calcRows_getElem?, hs]
  simp

/-- The derived constant: `20.0 − (2.0 + 0.8 + 2.0 + 1.0) = 14.2`. -/
theorem AVAIL_RNA_H2O_eq : AVAIL_RNA_H2O = 142 / 10 := by
  norm_num [AVAIL_RNA_H2O, FINAL_VOL, FIXED]

/-- Constant `MIN_PIP` as a plain fraction. -/
theorem MIN_PIP_eq : MIN_PIP = 1 / 2 := by norm_num [MIN_PIP]

/-- With `0 < req < MIN_PIP` the `dMax < 1` early return is not taken. -/
theorem one_le_dMax (req : ℚ) (h0 : 0 < req) (hlt : req < MIN_PIP) :
    1 ≤ ⌊AVAIL_RNA_H2O / req⌋ := by
  rw [Int.le_floor]
  push_cast
  rw [one_le_div h0]
  rw [MIN_PIP_eq] at hlt
  rw [AVAIL_RNA_H2O_eq]
  linarith

/-- Running `List.find?` on a strictly sorted list returns the given element when it
satisfies the predicate and every smaller member fails it. -/
theorem find?_pairwise_first {p : ℚ → Bool} {D : ℚ} :
    ∀ l : List ℚ, l.Pairwise (· < ·) → D ∈ l → p D = true →
      (∀ c ∈ l, c < D → p c = false) → l.find? p = some D := by
  intro l
  induction l with
  | nil => intro _ h; simp at h
  | cons a tl ih =>
    intro hpw hmem hp hfirst
    rcases List.mem_cons.mp hmem with rfl | hmem'
    · exact List.find?_cons_of_pos _ hp
    · have ha : a < D := (List.pairwise_cons.mp hpw).1 D hmem'
      have hpa : p a = false := hfirst a (List.mem_cons_self a tl) ha
      rw [List.find?_cons_of_neg _ (by simp [hpa])]
      exact ih (List.pairwise_cons.mp hpw).2 hmem' hp
        (fun c hc => hfirst c (List.mem_cons_of_mem a hc))

/-- First-match behaviour of `suggestDilution` on the candidate list. -/
theorem suggestDilution_first (req D : ℚ) (h0 : 0 < req) (hlt : req < MIN_PIP)
    (hD : D ∈ candidates)
    (hrange : MIN_PIP ≤ D * req ∧ D * req ≤ AVAIL_RNA_H2O)
    (hfirst : ∀ c ∈ candidates, c < D →
      ¬(MIN_PIP ≤ c * req ∧ c * req ≤ AVAIL_RNA_H2O)) :
    suggestDilution req = some { D := D, aliq := D * req, recipe := dilutionRecipeText D 10 } := by
  have hmax := one_le_dMax req h0 hlt
  have hsorted : candidates.Pairwise (· < ·) := by
    norm_num [candidates, List.pairwise_cons]
  have hfind := find?_pairwise_first candidates hsorted hD (decide_eq_true hrange)
    (fun c hc hcd => decide_eq_false (hfirst c hc hcd))
  simp only [suggestDilution]
  rw [if_neg (not_lt.mpr hmax), hfind]

/-- Quantitative facts about the computed fallback factor
`D = max(1, ⌈MIN_PIP / req⌉)`: its aliquot lies in
`[MIN_PIP, MIN_PIP + req)` and in particular fits the available volume. -/
theorem fallback_bounds (req : ℚ) (h0 : 0 < req) (hlt : req < MIN_PIP) :
    MIN_PIP ≤ max 1 ((⌈MIN_PIP / req⌉ : ℤ) : ℚ) * req ∧
    max 1 ((⌈MIN_PIP / req⌉ : ℤ) : ℚ) * req < MIN_PIP + req ∧
    max 1 ((⌈MIN_PIP / req⌉ : ℤ) : ℚ) * req ≤ AVAIL_RNA_H2O := by
  have hD1 : (1 : ℚ) ≤ MIN_PIP / req := (one_le_div h0).mpr hlt.le
  have hceil : MIN_PIP / req ≤ ((⌈MIN_PIP / req⌉ : ℤ) : ℚ) := Int.le_ceil _
  have hlt1 : ((⌈MIN_PIP / req⌉ : ℤ) : ℚ) < MIN_PIP / req + 1 := Int.ceil_lt_add_one _
  have hmaxeq : max 1 ((⌈MIN_PIP / req⌉ : ℤ) : ℚ) = ((⌈MIN_PIP / req⌉ : ℤ) : ℚ) :=
    max_eq_right (le_trans hD1 hceil)
  have hdivmul : MIN_PIP / req * req = MIN_PIP := div_mul_cancel₀ _ (ne_of_gt h0)
  have hlow : MIN_PIP ≤ max 1 ((⌈MIN_PIP / req⌉ : ℤ) : ℚ) * req := by
    have h1 : MIN_PIP / req * req ≤ ((⌈MIN_PIP / req⌉ : ℤ) : ℚ) * req :=
      mul_le_mul_of_nonneg_right hceil h0.le
    rw [hdivmul] at h1
    rw [hmaxeq]
    exact h1
  have hup : max 1 ((⌈MIN_PIP / req⌉ : ℤ) : ℚ) * req < MIN_PIP + req := by
    rw [hmaxeq]
    have h1 := mul_lt_mul_of_pos_right hlt1 h0
    have h2 : (MIN_PIP / req + 1) * req = MIN_PIP + req := by
      field_simp
    linarith
  refine ⟨hlow, hup, ?_⟩
  have hsum : MIN_PIP + req < 1 := by
    rw [MIN_PIP_eq] at hlt ⊢
    linarith
  have havail : (1 : ℚ) ≤ AVAIL_RNA_H2O := by
    rw [AVAIL_RNA_H2O_eq]
    norm_num
  linarith

/-- Fallback behaviour of `suggestDilution` when no candidate is in range. -/
theorem suggestDilution_fallback (req : ℚ) (h0 : 0 < req) (hlt : req < MIN_PIP)
    (hnone : ∀ c ∈ candidates, ¬(MIN_PIP ≤ c * req ∧ c * req ≤ AVAIL_RNA_H2O)) :
    suggestDilution req =
      if AVAIL_RNA_H2O < max 1 ((⌈MIN_PIP / req⌉ : ℤ) : ℚ) * req then none
      else some { D := max 1 ((⌈MIN_PIP / req⌉ : ℤ) : ℚ)
                  aliq := max 1 ((⌈MIN_PIP / req⌉ : ℤ) : ℚ) * req
                  recipe := dilutionRecipeText (max 1 ((⌈MIN_PIP / req⌉ : ℤ) : ℚ)) 10 } := by
  have hmax := one_le_dMax req h0 hlt
  have hfind : candidates.find?
      (fun c => decide (MIN_PIP ≤ c * req ∧ c * req ≤ AVAIL_RNA_H2O)) = none :=
    List.find?_eq_none.mpr (fun c hc => by simpa using hnone c hc)
  simp only [suggestDilution]
  rw [if_neg (not_lt.mpr hmax), hfind]

/-- For `0 < req < MIN_PIP` the advisor always returns a suggestion. -/
theorem suggestDilution_isSome (req : ℚ) (h0 : 0 < req) (hlt : req < MIN_PIP) :
    (suggestDilution req).isSome = true := by
  have hmax := one_le_dMax req h0 hlt
  simp only [suggestDilution]
  rw [if_neg (not_lt.mpr hmax)]
  cases hfind : candidates.find?
      (fun c => decide (MIN_PIP ≤ c * req ∧ c * req ≤ AVAIL_RNA_H2O)) with
  | some D => simp
  | none =>
    have hb := fallback_bounds req h0 hlt
    rw [if_neg (not_lt.mpr hb.2.2)]
    simp

/-- Membership in the sample-row segment comes from some indexed sample. -/
theorem mem_calcRows (t : ℚ) : ∀ (xs : List SampleIn) (k : ℕ) (row : CalcRow),
    row ∈ calcRows t k xs → ∃ idx s, row = calcRow t idx s := by
  intro xs
  induction xs with
  | nil => intro k row h; simp [calcRows] at h
  | cons s rest ih =>
    intro k row h
    rw [calcRows, List.mem_cons] at h
    rcases h with h | h
    · exact ⟨k, s, h⟩
    · exact ih (k + 1) row h

/-! The claims. -/

/-- Claim C1: for every sample with positive concentration whose required
volume `target / conc` lies in `[MIN_PIP, AVAIL_RNA_H2O]` (both ends
inclusive — in particular exactly `MIN_PIP` takes this path, not the
dilution path), the computed row has `rnaVol = target / conc` rounded to 3
decimals, `h2o = AVAIL_RNA_H2O − (target / conc)` rounded to 3 decimals,
achievable mass = the target (rounded to 1 decimal in the cell), and an
empty note. -/
theorem claim_C1 (samples : List SampleIn) (target overage : ℚ) (i : ℕ) (s : SampleIn)
    (hs : samples[i]? = some s) (hc : 0 < s.conc)
    (hmin : MIN_PIP ≤ target / s.conc) (hmax : target / s.conc ≤ AVAIL_RNA_H2O) :
    ∃ row, (calcLocally samples target overage).rows[i]? = some row ∧
      row.rnaVol = some (tfRound 3 (target / s.conc)) ∧
      row.h2o = some (tfRound 3 (AVAIL_RNA_H2O - target / s.conc)) ∧
      row.achievable = some (tfRound 1 target) ∧
      row.note = "" := by
  refine ⟨calcRow target i s,
    calcLocally_rows_getElem? samples target overage i s hs, ?_, ?_, ?_, ?_⟩ <;>
    simp [calcRow, mkSampleRow, hc, hmin, hmax]

/-- Witness for C1 at the boundary `requiredVolumeUl = MIN_PIP` exactly:
concentration 400 ng/µl, target 200 ng give `req = 200/400 = 0.5 = MIN_PIP`,
and the direct-pipetting path is taken. -/
theorem claim_C1_witness :
    (0 : ℚ) < 400 ∧ MIN_PIP ≤ (200 : ℚ) / 400 ∧ (200 : ℚ) / 400 ≤ AVAIL_RNA_H2O ∧
    (∃ row, (calcLocally [⟨"A", 400⟩] 200 10).rows[0]? = some row ∧
      row.rnaVol = some (tfRound 3 ((200 : ℚ) / 400)) ∧
      row.h2o = some (tfRound 3 (AVAIL_RNA_H2O - (200 : ℚ) / 400)) ∧
      row.achievable = some (tfRound 1 200) ∧
      row.note = "") :=
  ⟨by norm_num, by rw [MIN_PIP_eq]; norm_num, by rw [AVAIL_RNA_H2O_eq]; norm_num,
    claim_C1 [⟨"A", 400⟩] 200 10 0 ⟨"A", 400⟩ rfl (by norm_num)
      (by rw [MIN_PIP_eq]; norm_num) (by rw [AVAIL_RNA_H2O_eq]; norm_num)⟩

/-- Claim C2: for every sample with positive concentration and
`target / conc > AVAIL_RNA_H2O`, the row is infeasible: null volumes,
achievable mass `conc × AVAIL_RNA_H2O` rounded to 1 decimal, and the
"Conc too low" note built from the two `toFixed(1)` renderings. -/
theorem claim_C2 (samples : List SampleIn) (target overage : ℚ) (i : ℕ) (s : SampleIn)
    (hs : samples[i]? = some s) (hc : 0 < s.conc)
    (hinf : AVAIL_RNA_H2O < target / s.conc) :
    ∃ row, (calcLocally samples target overage).rows[i]? = some row ∧
      row.rnaVol = none ∧ row.h2o = none ∧
      row.achievable = some (tfRound 1 (s.conc * AVAIL_RNA_H2O)) ∧
      row.note = "Conc too low: max " ++ toFixedStr 1 (s.conc * AVAIL_RNA_H2O) ++
        " ng in " ++ toFixedStr 1 AVAIL_RNA_H2O ++ " µl." := by
  have hnf : ¬ (target / s.conc ≤ AVAIL_RNA_H2O) := not_le.mpr hinf
  have hax : max 0 (s.conc * AVAIL_RNA_H2O) = s.conc * AVAIL_RNA_H2O :=
    max_eq_right (mul_nonneg hc.le (by rw [AVAIL_RNA_H2O_eq]; norm_num))
  refine ⟨calcRow target i s,
    calcLocally_rows_getElem? samples target overage i s hs, ?_, ?_, ?_, ?_⟩ <;>
    simp [calcRow, mkSampleRow, hc, hnf, hax]

/-- Witness for C2 at the spec's scenario C: concentration 5 ng/µl,
target 200 ng → required 40 µl > 14.2 µl, achievable mass 71.0 ng, and the
note renders as `Conc too low: max 71.0 ng in 14.2 µl.`. -/
theorem claim_C2_witness :
    (0 : ℚ) < 5 ∧ AVAIL_RNA_H2O < (200 : ℚ) / 5 ∧
    (∃ row, (calcLocally [⟨"C", 5⟩] 200 10).rows[0]? = some row ∧
      row.rnaVol = none ∧ row.h2o = none ∧
      row.achievable = some (tfRound 1 ((5 : ℚ) * AVAIL_RNA_H2O)) ∧
      row.note = "Conc too low: max " ++ toFixedStr 1 ((5 : ℚ) * AVAIL_RNA_H2O) ++
        " ng in " ++ toFixedStr 1 AVAIL_RNA_H2O ++ " µl.") ∧
    tfRound 1 ((5 : ℚ) * AVAIL_RNA_H2O) = 71 :=
  ⟨by norm_num, by rw [AVAIL_RNA_H2O_eq]; norm_num,
    claim_C2 [⟨"C", 5⟩] 200 10 0 ⟨"C", 5⟩ rfl (by norm_num)
      (by rw [AVAIL_RNA_H2O_eq]; norm_num),
    by rw [AVAIL_RNA_H2O_eq]; norm_num [tfRound, halfUpInt]⟩

/-- Claim C3: for `0 < req < MIN_PIP` with at least one feasible integer
factor, the advisor returns the suggestion built from the FIRST candidate of
the fixed list `[2, 3, 4, 5, 10, 20, 50]` (in that scan order) whose aliquot
`D·req` lies in `[MIN_PIP, AVAIL_RNA_H2O]`, with `aliq = D·req`. -/
theorem claim_C3 (req D : ℚ) (h0 : 0 < req) (hlt : req < MIN_PIP)
    (_hfloor : 1 ≤ ⌊AVAIL_RNA_H2O / req⌋)
    (hD : D ∈ candidates)
    (hrange : MIN_PIP ≤ D * req ∧ D * req ≤ AVAIL_RNA_H2O)
    (hfirst : ∀ c ∈ candidates, c < D →
      ¬(MIN_PIP ≤ c * req ∧ c * req ≤ AVAIL_RNA_H2O)) :
    suggestDilution req =
      some { D := D, aliq := D * req, recipe := dilutionRecipeText D 10 } :=
  suggestDilution_first req D h0 hlt hD hrange hfirst

/-- Witness for C3 at the spec's scenario B: `req = 0.1` (concentration
2000 ng/µl, target 200 ng) selects `D = 5` with aliquot `0.5` µl. -/
theorem claim_C3_witness :
    (0 : ℚ) < 1 / 10 ∧ (1 / 10 : ℚ) < MIN_PIP ∧ (5 : ℚ) ∈ candidates ∧
    suggestDilution (1 / 10) =
      some { D := 5, aliq := 5 * (1 / 10), recipe := dilutionRecipeText 5 10 } ∧
    (5 : ℚ) * (1 / 10) = 1 / 2 :=
  ⟨by norm_num, by rw [MIN_PIP_eq]; norm_num, by norm_num [candidates],
    claim_C3 (1 / 10) 5 (by norm_num) (by rw [MIN_PIP_eq]; norm_num)
      (by rw [AVAIL_RNA_H2O_eq]; norm_num [Int.le_floor])
      (by norm_num [candidates])
      (by rw [MIN_PIP_eq, AVAIL_RNA_H2O_eq]; norm_num)
      (by
        intro c hc hcd
        fin_cases hc <;> rw [MIN_PIP_eq, AVAIL_RNA_H2O_eq] <;> norm_num at hcd ⊢),
    by norm_num⟩

/-- Claim C4: when no candidate factor fits, the advisor falls back to
`D = max(1, ⌈MIN_PIP / req⌉)` and returns the suggestion built from this `D`
exactly when `D·req ≤ AVAIL_RNA_H2O`, and `none` otherwise. -/
theorem claim_C4 (req : ℚ) (h0 : 0 < req) (hlt : req < MIN_PIP)
    (hnone : ∀ c ∈ candidates, ¬(MIN_PIP ≤ c * req ∧ c * req ≤ AVAIL_RNA_H2O)) :
    suggestDilution req =
      if AVAIL_RNA_H2O < max 1 ((⌈MIN_PIP / req⌉ : ℤ) : ℚ) * req then none
      else some { D := max 1 ((⌈MIN_PIP / req⌉ : ℤ) : ℚ)
                  aliq := max 1 ((⌈MIN_PIP / req⌉ : ℤ) : ℚ) * req
                  recipe := dilutionRecipeText (max 1 ((⌈MIN_PIP / req⌉ : ℤ) : ℚ)) 10 } :=
  suggestDilution_fallback req h0 hlt hnone

/-- Witness for C4 at `req = 0.005`: every candidate aliquot (at most
`50 × 0.005 = 0.25`) stays under `MIN_PIP`, so the fallback factor
`⌈0.5 / 0.005⌉ = 100` is used and its aliquot `0.5` fits. -/
theorem claim_C4_witness :
    (0 : ℚ) < 1 / 200 ∧ (1 / 200 : ℚ) < MIN_PIP ∧
    suggestDilution (1 / 200) =
      (if AVAIL_RNA_H2O < max 1 ((⌈MIN_PIP / (1 / 200)⌉ : ℤ) : ℚ) * (1 / 200) then none
       else some { D := max 1 ((⌈MIN_PIP / (1 / 200)⌉ : ℤ) : ℚ)
                   aliq := max 1 ((⌈MIN_PIP / (1 / 200)⌉ : ℤ) : ℚ) * (1 / 200)
                   recipe := dilutionRecipeText (max 1 ((⌈MIN_PIP / (1 / 200)⌉ : ℤ) : ℚ)) 10 }) ∧
    max 1 ((⌈MIN_PIP / (1 / 200 : ℚ)⌉ : ℤ) : ℚ) = 100 :=
  ⟨by norm_num, by rw [MIN_PIP_eq]; norm_num,
    claim_C4 (1 / 200) (by norm_num) (by rw [MIN_PIP_eq]; norm_num)
      (by
        intro c hc
        fin_cases hc <;> rw [MIN_PIP_eq, AVAIL_RNA_H2O_eq] <;> norm_num),
    by rw [MIN_PIP_eq]; norm_num [Int.ceil_eq_iff]⟩

/-- Claim C7 is false as stated: at `targetMassNg = 0` with a positive
(finite) concentration the program's row has a NON-NULL RNA volume cell
holding `NaN` — `0 / 100 = 0 < MIN_PIP` sends it to the advisor, whose
`Math.floor(14.2 / 0) = Infinity` passes the `dMax < 1` guard and whose
fallback factor `Infinity` yields the aliquot `Infinity × 0 = NaN` — so no
rational RNA/water pair exists at all, let alone one summing to
`AVAIL_RNA_H2O` within 1/1000. -/
theorem claim_C7_counterexample :
    (calcRowJS (JSVal.num 0) 0 ⟨"S1", JSVal.num 100⟩).rnaVol = some JSVal.nan ∧
    (calcRowJS (JSVal.num 0) 0 ⟨"S1", JSVal.num 100⟩).h2o = some JSVal.nan ∧
    ¬ ∃ r w : ℚ,
      (calcRowJS (JSVal.num 0) 0 ⟨"S1", JSVal.num 100⟩).rnaVol = some (JSVal.num r) ∧
      (calcRowJS (JSVal.num 0) 0 ⟨"S1", JSVal.num 100⟩).h2o = some (JSVal.num w) ∧
      |r + w - AVAIL_RNA_H2O| ≤ 1 / 1000 := by
  have h1 : (calcRowJS (JSVal.num 0) 0 ⟨"S1", JSVal.num 100⟩).rnaVol = some JSVal.nan := by
    norm_num [calcRowJS, suggestDilutionJS, candidatesJS, JSVal.jgt, JSVal.jge,
      JSVal.jlt, JSVal.jle, JSVal.jmul, JSVal.jdiv, JSVal.jsub, JSVal.jmax,
      JSVal.jceil, JSVal.jfloor, JSVal.jtfRound, JSVal.jIsFinite,
      List.find?, MIN_PIP, AVAIL_RNA_H2O, FINAL_VOL, FIXED]
  have h2 : (calcRowJS (JSVal.num 0) 0 ⟨"S1", JSVal.num 100⟩).h2o = some JSVal.nan := by
    norm_num [calcRowJS, suggestDilutionJS, candidatesJS, JSVal.jgt, JSVal.jge,
      JSVal.jlt, JSVal.jle, JSVal.jmul, JSVal.jdiv, JSVal.jsub, JSVal.jmax,
      JSVal.jceil, JSVal.jfloor, JSVal.jtfRound, JSVal.jIsFinite,
      List.find?, MIN_PIP, AVAIL_RNA_H2O, FINAL_VOL, FIXED]
  refine ⟨h1, h2, ?_⟩
  rintro ⟨r, w, hr, _, _⟩
  rw [h1] at hr
  exact JSVal.noConfusion (Option.some.inj hr)

/-- Claim C7, amended with the nonzero-target hypothesis the counterexample
forces: for every input with `targetMassNg ≠ 0` (and finite numeric inputs,
the domain of the rational model — non-finite concentrations also produce
NaN-volume rows, per the C5 correction), every output row with a non-null
RNA volume also carries a water volume, and the two sum to `AVAIL_RNA_H2O`
within the 3-decimal cell rounding (at most 1/1000 off); `AVAIL_RNA_H2O` is
the final reaction volume minus the four fixed reagent volumes, `14.2` µl
with the defaults. -/
theorem claim_C7 (samples : List SampleIn) (target overage : ℚ) (_htz : target ≠ 0)
    (row : CalcRow)
    (hrow : row ∈ (calcLocally samples target overage).rows) (r : ℚ)
    (hr : row.rnaVol = some r) :
    ∃ w, row.h2o = some w ∧ |r + w - AVAIL_RNA_H2O| ≤ 1 / 1000 ∧
      AVAIL_RNA_H2O = FINAL_VOL - (FIXED.buffer + FIXED.dntps + FIXED.rand + FIXED.enzyme) ∧
      AVAIL_RNA_H2O = 142 / 10 := by
  have hconsts : AVAIL_RNA_H2O
      = FINAL_VOL - (FIXED.buffer + FIXED.dntps + FIXED.rand + FIXED.enzyme) := rfl
  simp only [calcLocally] at hrow
  rcases List.mem_append.mp hrow with hmem | hmem
  · obtain ⟨idx, s, rfl⟩ := mem_calcRows target samples 0 row hmem
    by_cases hc : 0 < s.conc
    · by_cases hf : target / s.conc ≤ AVAIL_RNA_H2O
      · by_cases hm : MIN_PIP ≤ target / s.conc
        · have hr' : r = tfRound 3 (target / s.conc) := by
            simp [calcRow, mkSampleRow, hc, hf, hm] at hr
            exact hr.symm
          refine ⟨tfRound 3 (AVAIL_RNA_H2O - target / s.conc),
            by simp [calcRow, mkSampleRow, hc, hf, hm], ?_, hconsts, AVAIL_RNA_H2O_eq⟩
          rw [hr']
          exact tfRound3_pair_bound _
        · cases hsug : suggestDilution (target / s.conc) with
          | some sug =>
            have hr' : r = tfRound 3 sug.aliq := by
              simp [calcRow, mkSampleRow, hc, hf, hm, hsug] at hr
              exact hr.symm
            refine ⟨tfRound 3 (AVAIL_RNA_H2O - sug.aliq),
              by simp [calcRow, mkSampleRow, hc, hf, hm, hsug], ?_, hconsts, AVAIL_RNA_H2O_eq⟩
            rw [hr']
            exact tfRound3_pair_bound _
          | none =>
            simp [calcRow, mkSampleRow, hc, hf, hm, hsug] at hr
      · simp [calcRow, mkSampleRow, hc, hf] at hr
    · simp [calcRow, mkSampleRow, hc] at hr
  · rw [List.mem_singleton] at hmem
    subst hmem
    simp [masterRow] at hr

/-- Witness for C7: the single-sample run (concentration 100 ng/µl, target
200 ng) has `rnaVol = 2` and some water volume summing with it to
`AVAIL_RNA_H2O` within 1/1000. -/
theorem claim_C7_witness :
    ∃ w, (calcRow 200 0 ⟨"A", 100⟩).h2o = some w ∧
      |2 + w - AVAIL_RNA_H2O| ≤ 1 / 1000 ∧
      AVAIL_RNA_H2O = FINAL_VOL - (FIXED.buffer + FIXED.dntps + FIXED.rand + FIXED.enzyme) ∧
      AVAIL_RNA_H2O = 142 / 10 :=
  claim_C7 [⟨"A", 100⟩] 200 10 (by norm_num) (calcRow 200 0 ⟨"A", 100⟩)
    (by simp [calcLocally, calcRows])
    2
    (by
      have h2 : (200 : ℚ) / 100 = 2 := by norm_num
      have hc : (0 : ℚ) < 100 := by norm_num
      have hf : (200 : ℚ) / 100 ≤ AVAIL_RNA_H2O := by rw [AVAIL_RNA_H2O_eq]; norm_num
      have hm : MIN_PIP ≤ (200 : ℚ) / 100 := by rw [MIN_PIP_eq]; norm_num
      simp only [calcRow, mkSampleRow, hc, hf, hm, if_true, if_pos]
      rw [h2]
      norm_num [tfRound, halfUpInt])

/-- Claim C8: for a non-empty sample list the output is the sample rows in
input order followed by exactly one master-mix row, whose reaction count is
`max(1, ⌈n·(1 + overage/100)⌉)` and whose reagent cells are the per-reaction
volumes scaled by that count (rounded to 3 decimals), with the
concentration, RNA, water, final-volume and achievable cells all empty. -/
theorem claim_C8 (samples : List SampleIn) (target overage : ℚ) (_hne : samples ≠ []) :
    (calcLocally samples target overage).rows.length = samples.length + 1 ∧
    (∀ i s, samples[i]? = some s →
      (calcLocally samples target overage).rows[i]? = some (calcRow target i s)) ∧
    (calcLocally samples target overage).masterMix.n_total
      = max 1 ⌈(samples.length : ℚ) * (1 + overage / 100)⌉ ∧
    ∃ last, (calcLocally samples target overage).rows.getLast? = some last ∧
      last.conc = none ∧ last.rnaVol = none ∧ last.h2o = none ∧
      last.finalVol = none ∧ last.achievable = none ∧ last.order = 10 ^ 9 ∧
      last.buffer = tfRound 3 (FIXED.buffer *
        ((max 1 ⌈(samples.length : ℚ) * (1 + overage / 100)⌉ : ℤ) : ℚ)) ∧
      last.dntps = tfRound 3 (FIXED.dntps *
        ((max 1 ⌈(samples.length : ℚ) * (1 + overage / 100)⌉ : ℤ) : ℚ)) ∧
      last.rand = tfRound 3 (FIXED.rand *
        ((max 1 ⌈(samples.length : ℚ) * (1 + overage / 100)⌉ : ℤ) : ℚ)) ∧
      last.enzyme = tfRound 3 (FIXED.enzyme *
        ((max 1 ⌈(samples.length : ℚ) * (1 + overage / 100)⌉ : ℤ) : ℚ)) := by
  refine ⟨?_, fun i s hs => calcLocally_rows_getElem? samples target overage i s hs, rfl,
    masterRow samples.length overage, ?_, rfl, rfl, rfl, rfl, rfl, rfl,
    rfl, rfl, rfl, rfl⟩
  · simp [calcLocally, calcRows_length]
  · simp only [calcLocally]
    exact List.getLast?_concat _

/-- Witness for C8 on four samples with 10% overage: the reaction count is
`max(1, ⌈4 × 1.1⌉) = 5` and the row list has five entries (4 samples + the
master-mix row). -/
theorem claim_C8_witness :
    ([⟨"a", 100⟩, ⟨"b", 5⟩, ⟨"c", 2000⟩, ⟨"d", 400⟩] : List SampleIn) ≠ [] ∧
    (calcLocally [⟨"a", 100⟩, ⟨"b", 5⟩, ⟨"c", 2000⟩, ⟨"d", 400⟩] 200 10).rows.length
      = 4 + 1 ∧
    (calcLocally [⟨"a", 100⟩, ⟨"b", 5⟩, ⟨"c", 2000⟩, ⟨"d", 400⟩] 200 10).masterMix.n_total
      = max 1 ⌈((4 : ℕ) : ℚ) * (1 + 10 / 100)⌉ ∧
    max 1 ⌈((4 : ℕ) : ℚ) * (1 + 10 / 100)⌉ = 5 := by
  have h := claim_C8 [⟨"a", 100⟩, ⟨"b", 5⟩, ⟨"c", 2000⟩, ⟨"d", 400⟩] 200 10 (by simp)
  exact ⟨by simp, h.1, h.2.2.1, by norm_num [Int.ceil_eq_iff]⟩

/-- Claim C10: with the default parameters, for every `0 < req < MIN_PIP`
the advisor returns a suggestion — the fallback factor
`max(1, ⌈MIN_PIP / req⌉)` always yields an aliquot in
`[MIN_PIP, MIN_PIP + req)`, inside the available volume — so for a sample
with finite positive concentration and positive target the per-sample
calculator never reaches the no-suggestion branch: its row always carries an
RNA volume whenever the target is feasible. -/
theorem claim_C10 (req : ℚ) (h0 : 0 < req) (hlt : req < MIN_PIP) :
    (∃ D : ℚ, D = max 1 ((⌈MIN_PIP / req⌉ : ℤ) : ℚ) ∧
      MIN_PIP ≤ D * req ∧ D * req < MIN_PIP + req ∧ D * req ≤ AVAIL_RNA_H2O) ∧
    (suggestDilution req).isSome = true ∧
    (∀ (idx : ℕ) (nm : String) (conc target : ℚ), 0 < conc → 0 < target →
      target / conc = req →
      ((calcRow target idx ⟨nm, conc⟩).rnaVol).isSome = true) := by
  refine ⟨⟨_, rfl, fallback_bounds req h0 hlt⟩, suggestDilution_isSome req h0 hlt, ?_⟩
  intro idx nm conc target hc ht hreq
  have hfeas : target / conc ≤ AVAIL_RNA_H2O := by
    rw [hreq]
    have h1 : MIN_PIP ≤ AVAIL_RNA_H2O := by
      rw [MIN_PIP_eq, AVAIL_RNA_H2O_eq]
      norm_num
    linarith
  have hnm : ¬ MIN_PIP ≤ target / conc := by
    rw [hreq]
    exact not_le.mpr hlt
  rcases Option.isSome_iff_exists.mp (suggestDilution_isSome req h0 hlt) with ⟨sug, hsug⟩
  rw [hreq] at hfeas hnm
  simp [calcRow, mkSampleRow, hc, hfeas, hnm, hreq, hsug]

/-- Witness for C10 at `req = 0.3`. -/
theorem claim_C10_witness :
    (0 : ℚ) < 3 / 10 ∧ (3 / 10 : ℚ) < MIN_PIP ∧
    (suggestDilution (3 / 10)).isSome = true :=
  ⟨by norm_num, by rw [MIN_PIP_eq]; norm_num,
    (claim_C10 (3 / 10) (by norm_num) (by rw [MIN_PIP_eq]; norm_num)).2.1⟩

/-- The available volume renders as `"14.2"` with `toFixed(1)`. -/
theorem toFixedStr1_avail : toFixedStr 1 AVAIL_RNA_H2O = "14.2" := by
  rw [AVAIL_RNA_H2O_eq]
  have ha : |(142 / 10 : ℚ)| = 142 / 10 := abs_of_pos (by norm_num)
  have h7 : halfUpInt (|(142 / 10 : ℚ)| * 10 ^ 1) = 142 := by
    rw [ha]
    norm_num [halfUpInt]
  simp only [toFixedStr, h7]
  norm_num
  rfl

/-- Claim C5 is false as stated: a sample with concentration `+Infinity`
(and target 200) is NOT treated like a non-positive concentration — its row
has `rnaVol = NaN` (non-null), `h2o = NaN`, and achievable mass 200, because
`200 / Infinity = 0 < MIN_PIP` routes it into the dilution fallback, whose
factor `Infinity` gives the `NaN` aliquot `Infinity × 0`. -/
theorem claim_C5_counterexample :
    ¬ ((calcRowJS (JSVal.num 200) 0 ⟨"S1", JSVal.inf⟩).rnaVol = none ∧
       (calcRowJS (JSVal.num 200) 0 ⟨"S1", JSVal.inf⟩).h2o = none ∧
       (calcRowJS (JSVal.num 200) 0 ⟨"S1", JSVal.inf⟩).achievable = some (JSVal.num 0)) := by
  have h1 : (calcRowJS (JSVal.num 200) 0 ⟨"S1", JSVal.inf⟩).rnaVol = some JSVal.nan := by
    norm_num [calcRowJS, suggestDilutionJS, candidatesJS, JSVal.jgt, JSVal.jge,
      JSVal.jlt, JSVal.jle, JSVal.jmul, JSVal.jdiv, JSVal.jsub, JSVal.jmax,
      JSVal.jceil, JSVal.jfloor, JSVal.jtfRound, JSVal.jIsFinite,
      List.find?, MIN_PIP, AVAIL_RNA_H2O, FINAL_VOL, FIXED]
  intro h
  rw [h.1] at h1
  exact Option.noConfusion h1

/-- Claim C5, amended: the computation never crashes on non-finite
concentrations, but the three values behave differently.  `NaN` and
`-Infinity` take the infeasible branch with null volumes and a blank
concentration cell — with achievable mass `NaN` (not 0) for `NaN` and `0`
for `-Infinity` — while `+Infinity` (with any finite target) takes the
feasible sub-minimum path: the dilution fallback returns factor `Infinity`
with aliquot `NaN`, so the row carries non-null `NaN` RNA and water volumes
and achievable mass equal to the target. -/
theorem claim_C5_amended :
    toFixedStr 1 AVAIL_RNA_H2O = "14.2" ∧
    (∀ (t : JSVal) (nm : String) (idx : ℕ),
      (calcRowJS t idx ⟨nm, JSVal.nan⟩).rnaVol = none ∧
      (calcRowJS t idx ⟨nm, JSVal.nan⟩).h2o = none ∧
      (calcRowJS t idx ⟨nm, JSVal.nan⟩).conc = none ∧
      (calcRowJS t idx ⟨nm, JSVal.nan⟩).achievable = some JSVal.nan ∧
      (calcRowJS t idx ⟨nm, JSVal.nan⟩).note =
        "Conc too low: max NaN ng in " ++ toFixedStr 1 AVAIL_RNA_H2O ++ " µl.") ∧
    (∀ (t : JSVal) (nm : String) (idx : ℕ),
      (calcRowJS t idx ⟨nm, JSVal.ninf⟩).rnaVol = none ∧
      (calcRowJS t idx ⟨nm, JSVal.ninf⟩).h2o = none ∧
      (calcRowJS t idx ⟨nm, JSVal.ninf⟩).conc = none ∧
      (calcRowJS t idx ⟨nm, JSVal.ninf⟩).achievable = some (JSVal.num (tfRound 1 0)) ∧
      (calcRowJS t idx ⟨nm, JSVal.ninf⟩).note =
        "Conc too low: max " ++ toFixedStr 1 0 ++ " ng in " ++
          toFixedStr 1 AVAIL_RNA_H2O ++ " µl.") ∧
    (∀ (t : ℚ) (nm : String) (idx : ℕ),
      (calcRowJS (JSVal.num t) idx ⟨nm, JSVal.inf⟩).rnaVol = some JSVal.nan ∧
      (calcRowJS (JSVal.num t) idx ⟨nm, JSVal.inf⟩).h2o = some JSVal.nan ∧
      (calcRowJS (JSVal.num t) idx ⟨nm, JSVal.inf⟩).conc = none ∧
      (calcRowJS (JSVal.num t) idx ⟨nm, JSVal.inf⟩).achievable
        = some (JSVal.num (tfRound 1 t))) := by
  refine ⟨toFixedStr1_avail, fun t nm idx => ⟨rfl, rfl, rfl, rfl, rfl⟩,
    fun t nm idx => ⟨rfl, rfl, rfl, ?_, ?_⟩, fun t nm idx => ⟨?_, ?_, ?_, ?_⟩⟩ <;>
    norm_num [calcRowJS, suggestDilutionJS, candidatesJS, JSVal.jgt, JSVal.jge,
      JSVal.jlt, JSVal.jle, JSVal.jmul, JSVal.jdiv, JSVal.jsub, JSVal.jmax,
      JSVal.jceil, JSVal.jfloor, JSVal.jtfRound, JSVal.jToFixedStr, JSVal.jIsFinite,
      List.find?, MIN_PIP, AVAIL_RNA_H2O, FINAL_VOL, FIXED]

/-- The two copies compute identical sample rows (the bodies are textually
identical and the constants are definitionally equal). -/
theorem suite_calcRow_eq (target : ℚ) (idx : ℕ) (s : SampleIn) :
    Suite.calcRow target idx s = calcRow target idx s := rfl

/-- The two copies compute identical sample-row segments. -/
theorem suite_calcRows_eq (target : ℚ) : ∀ (k : ℕ) (xs : List SampleIn),
    Suite.calcRows target k xs = calcRows target k xs := by
  intro k xs
  induction xs generalizing k with
  | nil => rfl
  | cons s rest ih =>
    rw [Suite.calcRows, calcRows, suite_calcRow_eq, ih]

/-- Claim C9: the calculator duplicated in the modern app and in the suite
front-end variant is extensionally the same function — identical rows and
identical master-mix totals on every input. -/
theorem claim_C9 (samples : List SampleIn) (target overage : ℚ) :
    Suite.calcLocally samples target overage = calcLocally samples target overage := by
  rw [Suite.calcLocally, calcLocally, suite_calcRows_eq]
  rfl

/-- Claim C6: with an empty sample list the compute handler refuses to run,
surfacing the "no input" error, and never returns any result — in
particular no master-mix-only output. -/
theorem claim_C6 (target overage : ℚ) :
    handleCalculate [] target overage =
      Except.error "Please paste at least one sample with a concentration." ∧
    ∀ res, handleCalculate [] target overage ≠ Except.ok res := by
  refine ⟨rfl, ?_⟩
  intro res h
  simp [handleCalculate] at h

end CdnaCalc
